import Mathlib

/-!
Verification of the network-identifier resolver of the x402 server examples
(`src/python/x402/src/x402/networks.py`).

The module consists of three constant lookup tables and one pure function
`normalize_network`, which maps a caller-supplied network identifier string
to one of four canonical network names, or raises `ValueError`.

Shallow embedding conventions:
* Python dicts become association lists with `List.lookup` (the dict keys
  are distinct string/int literals, so `dict.get` and `List.lookup` agree).
* `raise ValueError(msg)` becomes `Except.error msg`; a normal return
  becomes `Except.ok`.
* Python's built-in `int(s)` (base 10) is modelled by `pyIntParse`, covering
  the ASCII fragment of CPython's grammar: optional surrounding whitespace,
  an optional single sign, and a nonempty digit run in which a single
  underscore may stand between two digits.  (CPython additionally accepts
  non-ASCII decimal digits and Unicode whitespace; no identifier in this
  repository or its spec exercises those.)
-/

namespace X402

/-- The values of the `SupportedNetworks = Literal[...]` type alias
(`networks.py` line 4). -/
def SupportedNetworks : List String :=
  ["base", "base-sepolia", "avalanche-fuji", "avalanche"]

/-- The dict `EVM_NETWORK_TO_CHAIN_ID` (`networks.py` lines 6-11). -/
def EVM_NETWORK_TO_CHAIN_ID : List (String × Int) :=
  [("base-sepolia", 84532),
   ("base", 8453),
   ("avalanche-fuji", 43113),
   ("avalanche", 43114)]

/-- The dict `CAIP2_TO_NETWORK` (`networks.py` lines 14-19):
CAIP-2 format mapping (eip155:chainId -> network name). -/
def CAIP2_TO_NETWORK : List (String × String) :=
  [("eip155:84532", "base-sepolia"),
   ("eip155:8453", "base"),
   ("eip155:43113", "avalanche-fuji"),
   ("eip155:43114", "avalanche")]

/-- The dict `CHAIN_ID_TO_NETWORK` (`networks.py` lines 22-27):
chain ID to network name mapping. -/
def CHAIN_ID_TO_NETWORK : List (Int × String) :=
  [(84532, "base-sepolia"),
   (8453, "base"),
   (43113, "avalanche-fuji"),
   (43114, "avalanche")]

/-- The list literal hard-coded in `normalize_network`'s identity fast path
(`networks.py` line 46: `network in ["base", "base-sepolia",
"avalanche-fuji", "avalanche"]`). -/
def canonicalFastPathList : List String :=
  ["base", "base-sepolia", "avalanche-fuji", "avalanche"]

/-- ASCII whitespace stripped by CPython's `int()` before parsing. -/
def pyIsSpace (c : Char) : Bool :=
  c = ' ' || c = '\t' || c = '\n' || c = '\x0d' || c = '\x0b' || c = '\x0c'

/-- Drop leading `pyIsSpace` characters. -/
def dropPySpaces : List Char → List Char
  | [] => []
  | c :: cs => if pyIsSpace c then dropPySpaces cs else c :: cs

/-- Strip leading and trailing `pyIsSpace` characters, as `int()` does. -/
def pyStrip (cs : List Char) : List Char :=
  (dropPySpaces (dropPySpaces cs).reverse).reverse

/-- Whether `cs` is a valid digit run for `int(_, 10)` after the optional
sign: nonempty, every character a decimal digit or an underscore, and every
underscore strictly between two digits.  The flag records whether the
previous character was a digit (`false` at the start, so the run may not
begin with an underscore, and an empty run is rejected). -/
def pyDigitsOk : Bool → List Char → Bool
  | prev, [] => prev
  | prev, c :: cs =>
    if c.isDigit then pyDigitsOk true cs
    else if c = '_' then prev && pyDigitsOk false cs
    else false

/-- Numeric value of a digit run, skipping the underscore separators. -/
def digitsToNat : Nat → List Char → Nat
  | acc, [] => acc
  | acc, c :: cs =>
    if c = '_' then digitsToNat acc cs
    else digitsToNat (acc * 10 + (c.toNat - 48)) cs

/-- Parse an unsigned digit run (CPython `digitpart`). -/
def pyUnsignedVal (cs : List Char) : Option Nat :=
  if pyDigitsOk false cs then some (digitsToNat 0 cs) else none

/-- Parse an optional single sign followed by a digit run. -/
def pySignedVal : List Char → Option Int
  | '+' :: cs => (pyUnsignedVal cs).map Int.ofNat
  | '-' :: cs => (pyUnsignedVal cs).map fun n => -(n : Int)
  | cs => (pyUnsignedVal cs).map Int.ofNat

/-- CPython's `int(s)` for base 10 (ASCII fragment): `none` models the
`ValueError` that `int()` raises on an invalid literal. -/
def pyIntParse (s : String) : Option Int :=
  pySignedVal (pyStrip s.data)

/-- Python's `s.startswith(pre)`: a code-point prefix test. -/
def pyStartsWith (s pre : String) : Bool :=
  pre.data.isPrefixOf s.data

/-- The body of the `try:` block of `normalize_network` (`networks.py`
lines 57-62): `chain_id = int(network)` (whose parse failure is a
`ValueError`), the `CHAIN_ID_TO_NETWORK` lookup, and the
`raise ValueError(f"Unsupported chain ID: {chain_id}")` on a miss.
The table values are nonempty strings, so Python's truthiness test
`if normalized:` coincides with the `None` check modelled by the match. -/
def tryChainId (network : String) : Except String String :=
  match pyIntParse network with
  | none => Except.error ("invalid literal for int() with base 10: " ++ network)
  | some chain_id =>
    match CHAIN_ID_TO_NETWORK.lookup chain_id with
    | some normalized => Except.ok normalized
    | none => Except.error ("Unsupported chain ID: " ++ toString chain_id)

/-- `normalize_network` (`networks.py` lines 30-66).  The whole `try:` body
is guarded by `except ValueError: pass`, so any `ValueError` arising inside
it — the `int()` parse failure or the raised unsupported-chain-ID error —
falls through to the final `raise ValueError(f"Unsupported network format:
{network}")`. -/
def normalize_network (network : String) : Except String String :=
  if network ∈ canonicalFastPathList then
    Except.ok network
  else if pyStartsWith network "eip155:" then
    match CAIP2_TO_NETWORK.lookup network with
    | some normalized => Except.ok normalized
    | none => Except.error ("Unsupported CAIP-2 network: " ++ network)
  else
    match tryChainId network with
    | Except.ok normalized => Except.ok normalized
    | Except.error _ => Except.error ("Unsupported network format: " ++ network)

example : normalize_network "base" = Except.ok "base" := rfl
example : normalize_network "eip155:84532" = Except.ok "base-sepolia" := rfl
example : normalize_network "43114" = Except.ok "avalanche" := rfl
example : normalize_network "999999" =
    Except.error "Unsupported network format: 999999" := rfl
example : normalize_network "eip155:999999" =
    Except.error "Unsupported CAIP-2 network: eip155:999999" := rfl
example : normalize_network "" = Except.error "Unsupported network format: " := rfl
example : normalize_network " 8453 " = Except.ok "base" := rfl
example : normalize_network "+8453" = Except.ok "base" := rfl
example : normalize_network "8_453" = Except.ok "base" := rfl
example : normalize_network "Base" =
    Except.error "Unsupported network format: Base" := rfl
example : pyIntParse "8__453" = none := rfl
example : pyIntParse "_8453" = none := rfl
example : pyIntParse "8453_" = none := rfl
example : pyIntParse "- 5" = none := rfl
example : pyIntParse "-8453" = some (-8453) := rfl

/-! ## Helper lemmas about the concrete lookup tables -/

/-- Every value of the CAIP-2 table is one of the four canonical names. -/
theorem lookup_caip2_mem (k v : String) (h : CAIP2_TO_NETWORK.lookup k = some v) :
    v ∈ canonicalFastPathList := by
  simp only [CAIP2_TO_NETWORK, List.lookup] at h
  repeat' split at h
  all_goals simp_all [canonicalFastPathList]

/-- Every value of the chain-ID table is one of the four canonical names. -/
theorem lookup_chainid_mem (c : Int) (v : String)
    (h : CHAIN_ID_TO_NETWORK.lookup c = some v) : v ∈ canonicalFastPathList := by
  simp only [CHAIN_ID_TO_NETWORK, List.lookup] at h
  repeat' split at h
  all_goals simp_all [canonicalFastPathList]

/-- If the `try:` block returns normally, the result is a canonical name. -/
theorem tryChainId_ok_mem (s v : String) (h : tryChainId s = Except.ok v) :
    v ∈ canonicalFastPathList := by
  unfold tryChainId at h
  cases hp : pyIntParse s with
  | none => simp only [hp] at h; cases h
  | some c =>
    simp only [hp] at h
    cases hL : CHAIN_ID_TO_NETWORK.lookup c with
    | none => simp only [hL] at h; cases h
    | some w =>
      simp only [hL] at h
      injection h with h
      exact h ▸ lookup_chainid_mem c w hL

/-! ## Claim theorems -/

/-- Claim C1: the spec asks that `normalize_network "999999"` fail with the
distinct unsupported-chain-ID reason, but the `raise ValueError(f"Unsupported
chain ID: ...")` sits inside the `try:` block guarded by
`except ValueError: pass`, so it is swallowed and the caller sees the generic
unrecognized-format reason instead. -/
theorem normalize_network_999999_generic_error :
    normalize_network "999999" =
      Except.error "Unsupported network format: 999999" ∧
    tryChainId "999999" = Except.error ("Unsupported chain ID: " ++ "999999") :=
  ⟨rfl, rfl⟩

/-- Claim C2: on every input, `normalize_network` either returns a canonical
network name or fails with a single `ValueError`; the only error messages
that can escape are the unsupported-CAIP-2 one and the generic
unrecognized-format one — in particular the integer-parse failure never
reaches the caller, and no partial result is ever returned. -/
theorem normalize_network_total_or_error (s : String) :
    (∃ r, normalize_network s = Except.ok r ∧ r ∈ canonicalFastPathList) ∨
    normalize_network s = Except.error ("Unsupported CAIP-2 network: " ++ s) ∨
    normalize_network s = Except.error ("Unsupported network format: " ++ s) := by
  unfold normalize_network
  split
  · exact Or.inl ⟨s, rfl, by assumption⟩
  · split
    · cases hL : CAIP2_TO_NETWORK.lookup s with
      | some v =>
        simp only [hL]
        exact Or.inl ⟨v, rfl, lookup_caip2_mem s v hL⟩
      | none => simp only [hL]; exact Or.inr (Or.inl trivial)
    · cases hT : tryChainId s with
      | ok v =>
        simp only [hT]
        exact Or.inl ⟨v, rfl, tryChainId_ok_mem s v hT⟩
      | error e => simp only [hT]; exact Or.inr (Or.inr trivial)

/-- Claim C3: the three lookup tables are mutually consistent — canonical
name to chain ID is a bijection (functional and injective, with the key set
exactly the canonical names), `CHAIN_ID_TO_NETWORK` is its inverse, and
`CAIP2_TO_NETWORK` maps `"eip155:" ++ str(chainId)` of each pair to the same
canonical name. -/
theorem tables_mutually_consistent :
    (∀ n c c', (n, c) ∈ EVM_NETWORK_TO_CHAIN_ID →
      (n, c') ∈ EVM_NETWORK_TO_CHAIN_ID → c = c') ∧
    (∀ n n' c, (n, c) ∈ EVM_NETWORK_TO_CHAIN_ID →
      (n', c) ∈ EVM_NETWORK_TO_CHAIN_ID → n = n') ∧
    CHAIN_ID_TO_NETWORK = EVM_NETWORK_TO_CHAIN_ID.map (fun p => (p.2, p.1)) ∧
    CAIP2_TO_NETWORK =
      EVM_NETWORK_TO_CHAIN_ID.map (fun p => ("eip155:" ++ toString p.2, p.1)) ∧
    (EVM_NETWORK_TO_CHAIN_ID.map Prod.fst).Perm canonicalFastPathList := by
  refine ⟨?_, ?_, rfl, rfl, List.Perm.swap "base" "base-sepolia" _⟩
  · intro n c c' h h'
    simp only [EVM_NETWORK_TO_CHAIN_ID, List.mem_cons, List.not_mem_nil, or_false,
      Prod.mk.injEq] at h h'
    rcases h with ⟨rfl, rfl⟩ | ⟨rfl, rfl⟩ | ⟨rfl, rfl⟩ | ⟨rfl, rfl⟩ <;> simp_all
  · intro n n' c h h'
    simp only [EVM_NETWORK_TO_CHAIN_ID, List.mem_cons, List.not_mem_nil, or_false,
      Prod.mk.injEq] at h h'
    rcases h with ⟨rfl, rfl⟩ | ⟨rfl, rfl⟩ | ⟨rfl, rfl⟩ | ⟨rfl, rfl⟩ <;> simp_all

/-- Witness for C3: instantiates the functionality and injectivity parts at
concrete table entries. -/
theorem tables_mutually_consistent_witness :
    (84532 : Int) = 84532 ∧ "base" = "base" :=
  ⟨tables_mutually_consistent.1 "base-sepolia" 84532 84532 (by decide) (by decide),
   tables_mutually_consistent.2.1 "base" "base" 8453 (by decide) (by decide)⟩

/-- Claim C4: for each table pair (canonical name `n`, chain ID `c`), both
alternate spellings round-trip: `normalize_network ("eip155:" ++ str c)` and
`normalize_network (str c)` return `n`. -/
theorem normalize_network_roundtrip (n : String) (c : Int)
    (h : (n, c) ∈ EVM_NETWORK_TO_CHAIN_ID) :
    normalize_network ("eip155:" ++ toString c) = Except.ok n ∧
    normalize_network (toString c) = Except.ok n := by
  simp only [EVM_NETWORK_TO_CHAIN_ID, List.mem_cons, List.not_mem_nil, or_false,
    Prod.mk.injEq] at h
  rcases h with ⟨rfl, rfl⟩ | ⟨rfl, rfl⟩ | ⟨rfl, rfl⟩ | ⟨rfl, rfl⟩ <;> exact ⟨rfl, rfl⟩

/-- Witness for C4: the spec's concrete scenarios
`normalize("eip155:84532") = "base-sepolia"` and
`normalize("43114") = "avalanche"`. -/
theorem normalize_network_roundtrip_witness :
    normalize_network ("eip155:" ++ toString (84532 : Int)) =
      Except.ok "base-sepolia" ∧
    normalize_network (toString (43114 : Int)) = Except.ok "avalanche" :=
  ⟨(normalize_network_roundtrip "base-sepolia" 84532 (by decide)).1,
   (normalize_network_roundtrip "avalanche" 43114 (by decide)).2⟩

/-- Claim C5: a non-canonical input with the `"eip155:"` prefix that is not
a key of the CAIP-2 table fails with the unsupported-CAIP-2 reason — it is
decided entirely by the CAIP-2 branch, never interpreted as a chain ID. -/
theorem normalize_network_caip2_unsupported (s : String)
    (h1 : s ∉ canonicalFastPathList) (h2 : pyStartsWith s "eip155:" = true)
    (h3 : CAIP2_TO_NETWORK.lookup s = none) :
    normalize_network s = Except.error ("Unsupported CAIP-2 network: " ++ s) := by
  unfold normalize_network
  rw [if_neg h1, if_pos h2]
  simp only [h3]

/-- Witness for C5 at the spec's examples `"eip155:999999"` and `"eip155:1"`. -/
theorem normalize_network_caip2_unsupported_witness :
    normalize_network "eip155:999999" =
      Except.error ("Unsupported CAIP-2 network: " ++ "eip155:999999") ∧
    normalize_network "eip155:1" =
      Except.error ("Unsupported CAIP-2 network: " ++ "eip155:1") :=
  ⟨normalize_network_caip2_unsupported "eip155:999999"
      (by decide) (by decide) (by decide),
   normalize_network_caip2_unsupported "eip155:1"
      (by decide) (by decide) (by decide)⟩

/-- Claim C6: `normalize_network` is the identity on each of the four
canonical names — the fast path returns the input unchanged. -/
theorem normalize_network_canonical_id (n : String)
    (h : n ∈ canonicalFastPathList) : normalize_network n = Except.ok n := by
  unfold normalize_network
  rw [if_pos h]

/-- Witness for C6 at all four canonical names. -/
theorem normalize_network_canonical_id_witness :
    normalize_network "base" = Except.ok "base" ∧
    normalize_network "base-sepolia" = Except.ok "base-sepolia" ∧
    normalize_network "avalanche-fuji" = Except.ok "avalanche-fuji" ∧
    normalize_network "avalanche" = Except.ok "avalanche" :=
  ⟨normalize_network_canonical_id "base" (by decide),
   normalize_network_canonical_id "base-sepolia" (by decide),
   normalize_network_canonical_id "avalanche-fuji" (by decide),
   normalize_network_canonical_id "avalanche" (by decide)⟩

/-- Claim C7: an input matching none of the three recognized forms — not
canonical, not `"eip155:"`-prefixed, not accepted by `int()` — fails with
the generic unrecognized-format reason (the parse failure is caught
internally and converted into this error). -/
theorem normalize_network_unrecognized (s : String)
    (h1 : s ∉ canonicalFastPathList) (h2 : pyStartsWith s "eip155:" = false)
    (h3 : pyIntParse s = none) :
    normalize_network s = Except.error ("Unsupported network format: " ++ s) := by
  unfold normalize_network tryChainId
  rw [if_neg h1]
  simp only [h2, h3, Bool.false_eq_true, if_false]

/-- Witness for C7 at the spec's examples `"not-a-network"` and `""`. -/
theorem normalize_network_unrecognized_witness :
    normalize_network "not-a-network" =
      Except.error ("Unsupported network format: " ++ "not-a-network") ∧
    normalize_network "" = Except.error ("Unsupported network format: " ++ "") :=
  ⟨normalize_network_unrecognized "not-a-network" (by decide) (by decide) (by decide),
   normalize_network_unrecognized "" (by decide) (by decide) (by decide)⟩

/-- Counterexample to claim C8 as stated: `" 8453 "` differs from the
recognized identifier `"8453"` only by surrounding whitespace, yet
`normalize_network` does not fail — `int()` strips the whitespace and the
call returns the canonical name `"base"`. -/
theorem normalize_network_trims_chain_id_counterexample :
    normalize_network " 8453 " = Except.ok "base" ∧
    "base" ∈ canonicalFastPathList ∧ " 8453 " ≠ "8453" :=
  ⟨rfl, by decide, by decide⟩

/-- Claim C8 (amended): no case-folding anywhere, and no trimming in the
canonical-name and CAIP-2 branches — case variants of recognized
identifiers and whitespace-padded canonical names or CAIP-2 identifiers all
fail; only the chain-ID branch tolerates surrounding whitespace, because
Python's `int()` strips it before parsing. -/
theorem normalize_network_exact_matching :
    normalize_network "Base" = Except.error "Unsupported network format: Base" ∧
    normalize_network "BASE" = Except.error "Unsupported network format: BASE" ∧
    normalize_network " base " =
      Except.error "Unsupported network format:  base " ∧
    normalize_network "Eip155:8453" =
      Except.error "Unsupported network format: Eip155:8453" ∧
    normalize_network "eip155:8453 " =
      Except.error "Unsupported CAIP-2 network: eip155:8453 " ∧
    normalize_network " eip155:8453" =
      Except.error "Unsupported network format:  eip155:8453" ∧
    normalize_network " 8453 " = Except.ok "base" :=
  ⟨rfl, rfl, rfl, rfl, rfl, rfl, rfl⟩

/-- Claim C9: the chain-ID branch accepts whatever Python's `int()` accepts
in base 10 — if `int()` parses the input to a supported chain ID, the call
succeeds with that network, whitespace, sign or underscore notwithstanding. -/
theorem normalize_network_chain_id_pyint (s : String) (c : Int) (n : String)
    (h1 : s ∉ canonicalFastPathList) (h2 : pyStartsWith s "eip155:" = false)
    (h3 : pyIntParse s = some c) (h4 : CHAIN_ID_TO_NETWORK.lookup c = some n) :
    normalize_network s = Except.ok n := by
  unfold normalize_network tryChainId
  rw [if_neg h1]
  simp only [h2, h3, h4, Bool.false_eq_true, if_false]

/-- Witness for C9 at the whitespace-padded, signed and underscore-grouped
spellings of chain ID 8453. -/
theorem normalize_network_chain_id_pyint_witness :
    normalize_network " 8453 " = Except.ok "base" ∧
    normalize_network "+8453" = Except.ok "base" ∧
    normalize_network "8_453" = Except.ok "base" :=
  ⟨normalize_network_chain_id_pyint " 8453 " 8453 "base"
      (by decide) (by decide) (by decide) (by decide),
   normalize_network_chain_id_pyint "+8453" 8453 "base"
      (by decide) (by decide) (by decide) (by decide),
   normalize_network_chain_id_pyint "8_453" 8453 "base"
      (by decide) (by decide) (by decide) (by decide)⟩

/-- Claim C10: the list hard-coded in the identity fast path equals the
`SupportedNetworks` literal values and is a permutation of the key list of
`EVM_NETWORK_TO_CHAIN_ID`, so the three delimit the same supported set. -/
theorem fast_path_list_matches_tables :
    canonicalFastPathList = SupportedNetworks ∧
    canonicalFastPathList.Perm (EVM_NETWORK_TO_CHAIN_ID.map Prod.fst) :=
  ⟨rfl, List.Perm.swap "base-sepolia" "base" _⟩

end X402
